import Mathlib

/-!
Verification of the flight-finder booking backend (server/index.js,
server/schemas.js) against its natural-language specification.

The JavaScript/Express/Mongoose code is shallowly embedded: the three Mongo
collections (users, flights, bookings) become association lists keyed by Nat
ids, each route handler becomes a pure function from a database state to a
result together with the next database state, and JavaScript numbers that can
go negative (seat counters) are modelled as Int.
-/

namespace FlightFinder

/-- A passenger entry of a booking request (name and age), as in
`bookingSchema.passengers` of server/schemas.js. -/
structure Passenger where
  name : String
  age : Int
deriving DecidableEq, Repr, Inhabited

/-- The `bookingStatus` values used by the code: "confirmed" and "cancelled". -/
inductive BookingStatus where
  | confirmed
  | cancelled
deriving DecidableEq, Repr, Inhabited

/-- A flight document, after `flightSchema` of server/schemas.js.
`journeyDate` (a JS `Date`) is modelled as an integer timestamp. -/
structure Flight where
  flightName : String
  flightId : String
  origin : String
  destination : String
  departureTime : String
  arrivalTime : String
  basePrice : Int
  totalSeats : Int
  journeyDate : Int
  availableSeats : Int
deriving DecidableEq, Repr, Inhabited

/-- A booking document, after `bookingSchema` of server/schemas.js.
`user` and `flight` are the referenced document ids. `email` is an Option
because the handler stores `req.user.email`, which is absent from the JWT
payload, hence undefined. `seats` is the comma-separated seat-code string
exactly as the code stores it. -/
structure Booking where
  user : Nat
  flight : Nat
  flightName : String
  flightId : String
  departure : String
  destination : String
  email : Option String
  mobile : String
  seats : String
  passengers : List Passenger
  totalPrice : Int
  bookingDate : Nat
  journeyDate : Int
  journeyTime : String
  seatClass : String
  bookingStatus : BookingStatus
deriving DecidableEq, Repr, Inhabited

/-- A user document, after `userSchema` of server/schemas.js. -/
structure UserRec where
  username : String
  email : String
  usertype : String
  password : String
  approval : String
deriving DecidableEq, Repr, Inhabited

/-- The error responses of the route handlers, named after the taxonomy of the
specification. `Conflict` is the 400 duplicate email/username response,
`InvalidRole` the 400 invalid-usertype response, `InvalidCredentials` the 401
login response, `OperatorNotApproved` the 403 unapproved-operator response,
`InsufficientSeats` the 400 not-enough-seats response, `AlreadyCancelled` the
400 already-cancelled response, `Forbidden` the 403 ownership response and
`NotFound` the 404 response. -/
inductive ApiError where
  | NotFound
  | InsufficientSeats
  | AlreadyCancelled
  | Forbidden
  | Conflict
  | InvalidRole
  | InvalidCredentials
  | OperatorNotApproved
deriving DecidableEq, Repr, Inhabited

/-- The JWT payload issued by register/login: `{ user: { id, usertype,
approval } }`. -/
structure SessionToken where
  userId : Nat
  usertype : String
  approval : String
deriving DecidableEq, Repr, Inhabited

/-- The document store: the three Mongo collections as association lists from
document id to document, plus fresh-id counters modelling Mongo object-id
generation and `now` modelling the clock used for `bookingDate`. -/
structure DB where
  users : List (Nat × UserRec)
  flights : List (Nat × Flight)
  bookings : List (Nat × Booking)
  nextUserId : Nat
  nextFlightId : Nat
  nextBookingId : Nat
  now : Nat
deriving DecidableEq, Repr, Inhabited

/-- The empty store. -/
def DB.empty : DB :=
  { users := [], flights := [], bookings := [], nextUserId := 1,
    nextFlightId := 1, nextBookingId := 1, now := 0 }

/-- `Model.findById(id)`: the first document with the given id, if any. -/
def findById {α : Type} : List (Nat × α) → Nat → Option α
  | [], _ => none
  | p :: t, i => if p.1 = i then some p.2 else findById t i

/-- `document.save()` for an existing document: replace the document with the
given id. -/
def setById {α : Type} : List (Nat × α) → Nat → α → List (Nat × α)
  | [], _, _ => []
  | p :: t, i, v => (if p.1 = i then (i, v) else p) :: setById t i v

/-- Models the external bcrypt service as an injective one-way function;
`bcrypt.compare(pw, stored)` is modelled as `stored = hashPw pw`. -/
def hashPw (p : String) : String := "bcrypt$" ++ p

/-- POST /register (index.js lines 75-124): duplicate-email check, then
duplicate-username check, then the usertype logic — flight-operator gets
approval "not-approved"; any usertype other than "user", "admin" and
"flight-operator" is rejected; otherwise approval stays at its initial
"approved". On success the new user is stored with a hashed password. -/
def register (db : DB) (username email usertype password : String) :
    Except ApiError UserRec × DB :=
  if db.users.any (fun p => p.2.email == email) then
    (.error .Conflict, db)
  else if db.users.any (fun p => p.2.username == username) then
    (.error .Conflict, db)
  else if usertype = "flight-operator" then
    let u : UserRec :=
      { username := username, email := email, usertype := usertype,
        password := hashPw password, approval := "not-approved" }
    (.ok u,
      { db with users := db.users ++ [(db.nextUserId, u)],
                nextUserId := db.nextUserId + 1 })
  else if usertype ≠ "user" ∧ usertype ≠ "admin" then
    (.error .InvalidRole, db)
  else
    let u : UserRec :=
      { username := username, email := email, usertype := usertype,
        password := hashPw password, approval := "approved" }
    (.ok u,
      { db with users := db.users ++ [(db.nextUserId, u)],
                nextUserId := db.nextUserId + 1 })

/-- POST /login (index.js lines 127-167): find user by email, compare the
password hash, then — exactly as written on line 141 — reject only when
`usertype === "flight-operator" && approval === "not-approved"`; otherwise
issue a token with the user id, usertype and approval. -/
def login (db : DB) (email password : String) : Except ApiError SessionToken :=
  match db.users.find? (fun p => p.2.email == email) with
  | none => .error .InvalidCredentials
  | some (uid, user) =>
    if hashPw password ≠ user.password then .error .InvalidCredentials
    else if user.usertype = "flight-operator" ∧ user.approval = "not-approved" then
      .error .OperatorNotApproved
    else .ok { userId := uid, usertype := user.usertype, approval := user.approval }

/-- Request body of POST /add-flight. -/
structure AddFlightReq where
  flightName : String
  flightId : String
  origin : String
  destination : String
  departureTime : String
  arrivalTime : String
  basePrice : Int
  totalSeats : Int
  journeyDate : Int
deriving DecidableEq, Repr, Inhabited

/-- POST /add-flight (index.js lines 243-261): stores a new flight with
`availableSeats` initialized to `totalSeats`. No validation of the fields is
performed by the handler. -/
def addFlight (db : DB) (r : AddFlightReq) : Flight × DB :=
  let f : Flight :=
    { flightName := r.flightName, flightId := r.flightId,
      origin := r.origin, destination := r.destination,
      departureTime := r.departureTime, arrivalTime := r.arrivalTime,
      basePrice := r.basePrice, totalSeats := r.totalSeats,
      journeyDate := r.journeyDate, availableSeats := r.totalSeats }
  (f,
    { db with flights := db.flights ++ [(db.nextFlightId, f)],
              nextFlightId := db.nextFlightId + 1 })

/-- Request body of PUT /update-flight (without the `_id`); a `none` field is
an absent JSON field. -/
structure UpdateFlightReq where
  flightName : Option String
  flightId : Option String
  origin : Option String
  destination : Option String
  departureTime : Option String
  arrivalTime : Option String
  basePrice : Option Int
  totalSeats : Option Int
  journeyDate : Option Int
deriving DecidableEq, Repr, Inhabited

/-- An update request providing no field at all. -/
def UpdateFlightReq.empty : UpdateFlightReq :=
  { flightName := none, flightId := none, origin := none, destination := none,
    departureTime := none, arrivalTime := none, basePrice := none,
    totalSeats := none, journeyDate := none }

/-- The JavaScript pattern `x || old` for string fields: an absent field and
the falsy empty string keep the old value. -/
def jsOrStr (v : Option String) (old : String) : String :=
  match v with
  | some s => if s = "" then old else s
  | none => old

/-- The JavaScript pattern `x || old` for number fields: an absent field and
the falsy number 0 keep the old value. -/
def jsOrNum (v : Option Int) (old : Int) : Int :=
  match v with
  | some x => if x = 0 then old else x
  | none => old

/-- PUT /update-flight (index.js lines 264-303): looks the flight up by
`_id`, overwrites each field with `req.body.field || flight.field`
(`journeyDate` with `if (journeyDate) ...`), and saves. `availableSeats` is
never touched — the commented-out recomputation on line 292 is dead. -/
def updateFlight (db : DB) (id : Nat) (r : UpdateFlightReq) :
    Except ApiError Flight × DB :=
  match findById db.flights id with
  | none => (.error .NotFound, db)
  | some flight =>
    let flight2 : Flight :=
      { flightName := jsOrStr r.flightName flight.flightName,
        flightId := jsOrStr r.flightId flight.flightId,
        origin := jsOrStr r.origin flight.origin,
        destination := jsOrStr r.destination flight.destination,
        departureTime := jsOrStr r.departureTime flight.departureTime,
        arrivalTime := jsOrStr r.arrivalTime flight.arrivalTime,
        basePrice := jsOrNum r.basePrice flight.basePrice,
        totalSeats := jsOrNum r.totalSeats flight.totalSeats,
        journeyDate := jsOrNum r.journeyDate flight.journeyDate,
        availableSeats := flight.availableSeats }
    (.ok flight2, { db with flights := setById db.flights id flight2 })

/-- The seat-code table of index.js line 372:
`{ economy: E, premium-economy: P, business: B, first-class: A }`; any other
key yields JavaScript `undefined`. -/
def seatCodeLookup (seatClass : String) : Option String :=
  if seatClass = "economy" then some "E"
  else if seatClass = "premium-economy" then some "P"
  else if seatClass = "business" then some "B"
  else if seatClass = "first-class" then some "A"
  else none

/-- The coach letter as it appears in the template literal on line 376: a
defined lookup renders as itself, JavaScript `undefined` renders as the
string "undefined". -/
def seatLetter (seatClass : String) : String :=
  match seatCodeLookup seatClass with
  | some l => l
  | none => "undefined"

/-- Lines 368-369: `Booking.find({ flight: flightId, seatClass })` followed by
`reduce((acc, b) => acc + b.passengers.length, 0)` — the passenger count of
every booking of this flight and class, with no filter on `bookingStatus`
(cancelled bookings are included). -/
def priorCount (bs : List (Nat × Booking)) (flightKey : Nat) (seatClass : String) : Nat :=
  (bs.filter (fun p => p.2.flight == flightKey && p.2.seatClass == seatClass)).foldl
    (fun acc p => acc + p.2.passengers.length) 0

/-- The default `req.body.mobile || "N/A"` on line 388. -/
def jsOrNA (v : Option String) : String :=
  match v with
  | some s => if s = "" then "N/A" else s
  | none => "N/A"

/-- The in-flight state of one POST /book-ticket request after its reads and
before its writes: the flight id, the in-memory copy of the flight document
read at the start (the copy later mutated and saved whole), and the fully
built new booking. -/
structure PendingBooking where
  flightKey : Nat
  snapshot : Flight
  newBooking : Booking
deriving DecidableEq, Repr, Inhabited

/-- Steps 2-4 of the handler given the flight that was read: price, prior
seat count in the class, seat codes
`coachLetter-(numBookedSeatsInClass + i + 1)` joined with ", ", and the new
booking document (index.js lines 358-397). -/
def mkPending (db : DB) (userId flightKey : Nat) (passengers : List Passenger)
    (seatClass : String) (mobile : Option String) (flight : Flight) :
    PendingBooking :=
  let numSeatsToBook := passengers.length
  let totalPrice := (numSeatsToBook : Int) * flight.basePrice
  let numBookedSeatsInClass := priorCount db.bookings flightKey seatClass
  let seatsAssigned := (List.range numSeatsToBook).map
    (fun i => seatLetter seatClass ++ "-" ++ toString (numBookedSeatsInClass + i + 1))
  { flightKey := flightKey, snapshot := flight,
    newBooking :=
      { user := userId, flight := flightKey,
        flightName := flight.flightName, flightId := flight.flightId,
        departure := flight.departureTime, destination := flight.destination,
        email := none, mobile := jsOrNA mobile,
        passengers := passengers, totalPrice := totalPrice,
        bookingDate := db.now, journeyDate := flight.journeyDate,
        journeyTime := flight.departureTime, seatClass := seatClass,
        seats := String.intercalate ", " seatsAssigned,
        bookingStatus := .confirmed } }

/-- The read phase of POST /book-ticket (index.js lines 352-397): load the
flight (404 if absent), fail with InsufficientSeats when
`availableSeats < passengers.length`, otherwise compute the pending booking.
No database write happens in this phase. -/
def bookRead (db : DB) (userId flightKey : Nat) (passengers : List Passenger)
    (seatClass : String) (mobile : Option String) :
    Except ApiError PendingBooking :=
  match findById db.flights flightKey with
  | none => .error .NotFound
  | some flight =>
    if flight.availableSeats < (passengers.length : Int) then
      .error .InsufficientSeats
    else
      .ok (mkPending db userId flightKey passengers seatClass mobile flight)

/-- The write phase of POST /book-ticket (index.js lines 398-402):
`newBooking.save()`, then `flight.availableSeats -= n; flight.save()` — the
flight document written back is the in-memory copy read at the start, with
only its seat count decremented. -/
def bookCommit (db : DB) (p : PendingBooking) : DB :=
  let db1 :=
    { db with bookings := db.bookings ++ [(db.nextBookingId, p.newBooking)],
              nextBookingId := db.nextBookingId + 1 }
  let flight2 :=
    { p.snapshot with
        availableSeats :=
          p.snapshot.availableSeats - (p.newBooking.passengers.length : Int) }
  { db1 with flights := setById db1.flights p.flightKey flight2 }

/-- POST /book-ticket run without interleaving: the read phase directly
followed by the write phase. -/
def bookTicket (db : DB) (userId flightKey : Nat) (passengers : List Passenger)
    (seatClass : String) (mobile : Option String) :
    Except ApiError Booking × DB :=
  match bookRead db userId flightKey passengers seatClass mobile with
  | .error e => (.error e, db)
  | .ok p => (.ok p.newBooking, bookCommit db p)

/-- PUT /cancel-ticket/:id (index.js lines 413-448): load the booking (404 if
absent), 403 unless the caller is the owner or an admin, 400 if already
cancelled; otherwise set the status to cancelled and save, then load the
referenced flight and, if it exists, add `booking.passengers.length` back to
its `availableSeats` (restoration is silently skipped when the flight is
missing). -/
def cancelTicket (db : DB) (callerId : Nat) (callerType : String)
    (bookingId : Nat) : Except ApiError Booking × DB :=
  match findById db.bookings bookingId with
  | none => (.error .NotFound, db)
  | some booking =>
    if booking.user ≠ callerId ∧ callerType ≠ "admin" then
      (.error .Forbidden, db)
    else if booking.bookingStatus = .cancelled then
      (.error .AlreadyCancelled, db)
    else
      let booking2 := { booking with bookingStatus := BookingStatus.cancelled }
      let db1 := { db with bookings := setById db.bookings bookingId booking2 }
      match findById db1.flights booking.flight with
      | none => (.ok booking2, db1)
      | some flight =>
        let flight2 :=
          { flight with
              availableSeats :=
                flight.availableSeats + (booking.passengers.length : Int) }
        (.ok booking2,
          { db1 with flights := setById db1.flights booking.flight flight2 })

/-- The flight/booking operations of the API, for reasoning about sequences
of requests. -/
inductive Op where
  | addFlight (r : AddFlightReq)
  | updateFlight (id : Nat) (r : UpdateFlightReq)
  | bookTicket (userId flightKey : Nat) (passengers : List Passenger)
      (seatClass : String) (mobile : Option String)
  | cancelTicket (callerId : Nat) (callerType : String) (bookingId : Nat)
deriving DecidableEq, Repr, Inhabited

/-- Run one request against the store, keeping only the resulting store. -/
def applyOp (db : DB) : Op → DB
  | .addFlight r => (addFlight db r).2
  | .updateFlight i r => (updateFlight db i r).2
  | .bookTicket u f ps c m => (bookTicket db u f ps c m).2
  | .cancelTicket u t b => (cancelTicket db u t b).2

/-- Run a sequence of requests. -/
def runOps (db : DB) (ops : List Op) : DB := ops.foldl applyOp db

/-! ### Association-list lemmas -/

theorem findById_mem {α : Type} {l : List (Nat × α)} {i : Nat} {v : α}
    (h : findById l i = some v) : (i, v) ∈ l := by
  induction l with
  | nil => simp [findById] at h
  | cons p t ih =>
    by_cases hp : p.1 = i
    · simp only [findById, if_pos hp, Option.some.injEq] at h
      have : (i, v) = p := by
        obtain ⟨a, b⟩ := p
        simp only at hp h
        rw [hp, h]
      rw [this]
      exact List.mem_cons_self p t
    · simp only [findById, if_neg hp] at h
      exact List.mem_cons_of_mem p (ih h)

theorem findById_of_mem_fst {α : Type} {l : List (Nat × α)} {i : Nat}
    (h : i ∈ l.map Prod.fst) : ∃ v, findById l i = some v := by
  induction l with
  | nil => simp at h
  | cons p t ih =>
    by_cases hp : p.1 = i
    · exact ⟨p.2, by simp [findById, hp]⟩
    · simp only [List.map_cons, List.mem_cons] at h
      rcases h with h | h
      · exact absurd h.symm hp
      · obtain ⟨v, hv⟩ := ih h
        exact ⟨v, by simp [findById, hp, hv]⟩

theorem setById_map_fst {α : Type} (l : List (Nat × α)) (i : Nat) (v : α) :
    (setById l i v).map Prod.fst = l.map Prod.fst := by
  induction l with
  | nil => rfl
  | cons p t ih =>
    by_cases hp : p.1 = i
    · simp [setById, hp, ih]
    · simp [setById, hp, ih]

theorem setById_of_not_mem {α : Type} {l : List (Nat × α)} {i : Nat} (v : α)
    (h : i ∉ l.map Prod.fst) : setById l i v = l := by
  induction l with
  | nil => rfl
  | cons p t ih =>
    simp only [List.map_cons, List.mem_cons, not_or] at h
    have hne : ¬ p.1 = i := fun he => h.1 he.symm
    simp [setById, hne, ih h.2]

theorem mem_setById {α : Type} {l : List (Nat × α)} {i : Nat} {v : α}
    {q : Nat × α} (hq : q ∈ setById l i v) : (q ∈ l ∧ q.1 ≠ i) ∨ q = (i, v) := by
  induction l with
  | nil => simp [setById] at hq
  | cons p t ih =>
    simp only [setById, List.mem_cons] at hq
    rcases hq with h | h
    · by_cases hp : p.1 = i
      · right; rw [h, if_pos hp]
      · left
        rw [if_neg hp] at h
        rw [h]
        exact ⟨List.mem_cons_self p t, hp⟩
    · rcases ih h with ⟨h1, h2⟩ | h1
      · exact .inl ⟨List.mem_cons_of_mem p h1, h2⟩
      · exact .inr h1

theorem findById_setById_self {α : Type} {l : List (Nat × α)} {i : Nat}
    {w : α} (v : α) (h : findById l i = some w) :
    findById (setById l i v) i = some v := by
  induction l with
  | nil => simp [findById] at h
  | cons p t ih =>
    by_cases hp : p.1 = i
    · simp [findById, setById, hp]
    · simp only [findById, setById, if_neg hp] at h ⊢
      exact ih h

/-! ### Seat accounting and the inventory invariant -/

/-- The number of seats a booking currently holds against a flight: its
passenger count when it is a confirmed booking of that flight, 0 otherwise. -/
def contrib (b : Booking) (fid : Nat) : Nat :=
  if b.flight = fid ∧ b.bookingStatus = BookingStatus.confirmed
  then b.passengers.length else 0

/-- Total seats held by confirmed bookings of the given flight. -/
def confirmedSeats : List (Nat × Booking) → Nat → Nat
  | [], _ => 0
  | p :: t, fid => contrib p.2 fid + confirmedSeats t fid

theorem confirmedSeats_append (bs : List (Nat × Booking)) (q : Nat × Booking)
    (fid : Nat) :
    confirmedSeats (bs ++ [q]) fid = confirmedSeats bs fid + contrib q.2 fid := by
  induction bs with
  | nil => simp [confirmedSeats]
  | cons p t ih => simp [confirmedSeats, ih]; omega

theorem confirmedSeats_eq_zero {bs : List (Nat × Booking)} {fid : Nat}
    (h : ∀ p ∈ bs, p.2.flight ≠ fid) : confirmedSeats bs fid = 0 := by
  induction bs with
  | nil => rfl
  | cons p t ih =>
    have h1 := h p (List.mem_cons_self p t)
    have h2 := ih fun q hq => h q (List.mem_cons_of_mem p hq)
    simp [confirmedSeats, contrib, h1, h2]

theorem confirmedSeats_setById {bs : List (Nat × Booking)} {bid : Nat}
    {b : Booking} (b2 : Booking) (fid : Nat)
    (hfind : findById bs bid = some b) (hnd : (bs.map Prod.fst).Nodup) :
    (confirmedSeats (setById bs bid b2) fid : Int)
      = (confirmedSeats bs fid : Int) - contrib b fid + contrib b2 fid := by
  induction bs with
  | nil => simp [findById] at hfind
  | cons p t ih =>
    simp only [List.map_cons, List.nodup_cons] at hnd
    obtain ⟨hpt, hnd2⟩ := hnd
    by_cases hp : p.1 = bid
    · simp only [findById, if_pos hp, Option.some.injEq] at hfind
      have ht : setById t bid b2 = t := setById_of_not_mem _ (hp ▸ hpt)
      simp only [setById, if_pos hp, confirmedSeats, ht, ← hfind]
      push_cast
      ring
    · simp only [findById, if_neg hp] at hfind
      simp only [setById, if_neg hp, confirmedSeats]
      push_cast
      rw [ih hfind hnd2]
      ring

/-- The inductive bookkeeping invariant of the store: document ids are unique
and below the fresh-id counters, every booking references an existing flight,
and every flight has a nonnegative seat count that, together with the seats
of its confirmed bookings, adds up to its capacity. -/
structure SeatInvariant (db : DB) : Prop where
  flights_nodup : (db.flights.map Prod.fst).Nodup
  flights_lt : ∀ p ∈ db.flights, p.1 < db.nextFlightId
  bookings_nodup : (db.bookings.map Prod.fst).Nodup
  bookings_lt : ∀ p ∈ db.bookings, p.1 < db.nextBookingId
  bookings_flight : ∀ p ∈ db.bookings, p.2.flight ∈ db.flights.map Prod.fst
  seats : ∀ p ∈ db.flights,
    0 ≤ p.2.availableSeats ∧
      p.2.availableSeats + (confirmedSeats db.bookings p.1 : Int) = p.2.totalSeats

/-- The operations whose sequences the amended seat-bound invariant covers:
every request, except that an addFlight request must carry a nonnegative
capacity and an updateFlight request must not supply `totalSeats`. -/
def SafeOp : Op → Prop
  | .addFlight r => 0 ≤ r.totalSeats
  | .updateFlight _ r => r.totalSeats = none
  | .bookTicket _ _ _ _ _ => True
  | .cancelTicket _ _ _ => True

instance instDecidableSafeOp : (op : Op) → Decidable (SafeOp op)
  | .addFlight r => inferInstanceAs (Decidable (0 ≤ r.totalSeats))
  | .updateFlight _ r => inferInstanceAs (Decidable (r.totalSeats = none))
  | .bookTicket _ _ _ _ _ => inferInstanceAs (Decidable True)
  | .cancelTicket _ _ _ => inferInstanceAs (Decidable True)

theorem seatInvariant_empty : SeatInvariant DB.empty := by
  constructor <;> simp [DB.empty]

theorem bookings_flight_lt {db : DB} (inv : SeatInvariant db) :
    ∀ p ∈ db.bookings, p.2.flight < db.nextFlightId := by
  intro p hp
  obtain ⟨q, hq, hqe⟩ := List.mem_map.mp (inv.bookings_flight p hp)
  exact hqe ▸ inv.flights_lt q hq

theorem seatInvariant_addFlight {db : DB} {r : AddFlightReq}
    (inv : SeatInvariant db) (hr : 0 ≤ r.totalSeats) :
    SeatInvariant (addFlight db r).2 := by
  constructor
  case flights_nodup =>
    simp only [addFlight, List.map_append, List.map_cons, List.map_nil]
    rw [List.nodup_append]
    refine ⟨inv.flights_nodup, List.nodup_singleton _, ?_⟩
    intro a ha hb
    simp only [List.mem_singleton] at hb
    obtain ⟨q, hq, hqe⟩ := List.mem_map.mp ha
    exact absurd (hqe ▸ hb ▸ inv.flights_lt q hq) (lt_irrefl _)
  case flights_lt =>
    intro p hp
    simp only [addFlight, List.mem_append, List.mem_singleton] at hp
    rcases hp with hp | hp
    · exact Nat.lt_succ_of_lt (inv.flights_lt p hp)
    · simp [addFlight, hp]
  case bookings_nodup => exact inv.bookings_nodup
  case bookings_lt => exact inv.bookings_lt
  case bookings_flight =>
    intro p hp
    simp only [addFlight, List.map_append, List.mem_append]
    exact .inl (inv.bookings_flight p hp)
  case seats =>
    intro p hp
    simp only [addFlight, List.mem_append, List.mem_singleton] at hp
    rcases hp with hp | hp
    · exact inv.seats p hp
    · subst hp
      have hz : confirmedSeats db.bookings db.nextFlightId = 0 :=
        confirmedSeats_eq_zero fun q hq =>
          Nat.ne_of_lt (bookings_flight_lt inv q hq)
      exact ⟨hr, by simp [addFlight, hz]⟩

theorem seatInvariant_updateFlight {db : DB} {id : Nat} {r : UpdateFlightReq}
    (inv : SeatInvariant db) (hr : r.totalSeats = none) :
    SeatInvariant (updateFlight db id r).2 := by
  unfold updateFlight
  cases hf : findById db.flights id with
  | none => exact inv
  | some flight =>
    simp only
    have hmem := findById_mem hf
    constructor
    case flights_nodup => rw [setById_map_fst]; exact inv.flights_nodup
    case flights_lt =>
      intro p hp
      rcases mem_setById hp with ⟨hp1, _⟩ | hp1
      · exact inv.flights_lt p hp1
      · rw [hp1]
        simpa using inv.flights_lt (id, flight) hmem
    case bookings_nodup => exact inv.bookings_nodup
    case bookings_lt => exact inv.bookings_lt
    case bookings_flight =>
      intro p hp
      rw [setById_map_fst]
      exact inv.bookings_flight p hp
    case seats =>
      intro p hp
      rcases mem_setById hp with ⟨hp1, _⟩ | hp1
      · exact inv.seats p hp1
      · subst hp1
        obtain ⟨h0, heq⟩ := inv.seats _ hmem
        exact ⟨h0, by simpa [jsOrNum, hr] using heq⟩

theorem bookRead_ok {db : DB} {u fid : Nat} {ps : List Passenger} {c : String}
    {m : Option String} {p : PendingBooking}
    (h : bookRead db u fid ps c m = .ok p) :
    ∃ flight, findById db.flights fid = some flight ∧
      (ps.length : Int) ≤ flight.availableSeats ∧
      p = mkPending db u fid ps c m flight := by
  unfold bookRead at h
  cases hf : findById db.flights fid with
  | none => rw [hf] at h; exact absurd h (by simp)
  | some flight =>
    rw [hf] at h
    dsimp only at h
    by_cases hav : flight.availableSeats < (ps.length : Int)
    · rw [if_pos hav] at h
      exact absurd h (by simp)
    · rw [if_neg hav] at h
      exact ⟨flight, rfl, not_lt.mp hav, (Except.ok.inj h).symm⟩

theorem seatInvariant_bookCommit {db : DB} {p : PendingBooking}
    (inv : SeatInvariant db)
    (hf : findById db.flights p.flightKey = some p.snapshot)
    (hn : (p.newBooking.passengers.length : Int) ≤ p.snapshot.availableSeats)
    (hfl : p.newBooking.flight = p.flightKey)
    (hst : p.newBooking.bookingStatus = .confirmed) :
    SeatInvariant (bookCommit db p) := by
  have hmem := findById_mem hf
  have hkey : p.flightKey ∈ db.flights.map Prod.fst :=
    List.mem_map.mpr ⟨(p.flightKey, p.snapshot), hmem, rfl⟩
  constructor
  case flights_nodup =>
    simp only [bookCommit]
    rw [setById_map_fst]
    exact inv.flights_nodup
  case flights_lt =>
    intro q hq
    simp only [bookCommit] at hq
    rcases mem_setById hq with ⟨hq1, _⟩ | hq1
    · exact inv.flights_lt q hq1
    · rw [hq1]
      simpa using inv.flights_lt _ hmem
  case bookings_nodup =>
    simp only [bookCommit, List.map_append, List.map_cons, List.map_nil]
    rw [List.nodup_append]
    refine ⟨inv.bookings_nodup, List.nodup_singleton _, ?_⟩
    intro a ha hb
    simp only [List.mem_singleton] at hb
    obtain ⟨q, hq, hqe⟩ := List.mem_map.mp ha
    exact absurd (hqe ▸ hb ▸ inv.bookings_lt q hq) (lt_irrefl _)
  case bookings_lt =>
    intro q hq
    simp only [bookCommit, List.mem_append, List.mem_singleton] at hq
    rcases hq with hq | hq
    · exact Nat.lt_succ_of_lt (inv.bookings_lt q hq)
    · simp [bookCommit, hq]
  case bookings_flight =>
    intro q hq
    simp only [bookCommit, List.mem_append, List.mem_singleton] at hq
    simp only [bookCommit]
    rw [setById_map_fst]
    rcases hq with hq | hq
    · exact inv.bookings_flight q hq
    · rw [hq]
      simpa [hfl] using hkey
  case seats =>
    intro q hq
    simp only [bookCommit] at hq ⊢
    rcases mem_setById hq with ⟨hq1, hq2⟩ | hq1
    · obtain ⟨h0, heq⟩ := inv.seats q hq1
      refine ⟨h0, ?_⟩
      rw [confirmedSeats_append]
      have hne : p.newBooking.flight ≠ q.1 := fun he => hq2 (he.symm.trans hfl)
      have hc : contrib p.newBooking q.1 = 0 := by simp [contrib, hne]
      rw [hc]
      simpa using heq
    · rw [hq1]
      obtain ⟨h0, heq⟩ := inv.seats _ hmem
      constructor
      · simp only
        omega
      · simp only
        rw [confirmedSeats_append]
        have hc : contrib p.newBooking p.flightKey = p.newBooking.passengers.length := by
          simp [contrib, hfl, hst]
        rw [hc]
        push_cast
        push_cast at heq
        linarith

theorem seatInvariant_bookTicket {db : DB} {u fid : Nat} {ps : List Passenger}
    {c : String} {m : Option String} (inv : SeatInvariant db) :
    SeatInvariant (bookTicket db u fid ps c m).2 := by
  unfold bookTicket
  cases hb : bookRead db u fid ps c m with
  | error e => exact inv
  | ok p =>
    obtain ⟨flight, hf, hav, hp⟩ := bookRead_ok hb
    subst hp
    exact seatInvariant_bookCommit inv hf (by simpa [mkPending] using hav)
      (by simp [mkPending]) (by simp [mkPending])

theorem seatInvariant_cancelTicket {db : DB} {cid : Nat} {ct : String}
    {bid : Nat} (inv : SeatInvariant db) :
    SeatInvariant (cancelTicket db cid ct bid).2 := by
  unfold cancelTicket
  cases hb : findById db.bookings bid with
  | none => exact inv
  | some booking =>
    dsimp only
    by_cases hauth : booking.user ≠ cid ∧ ct ≠ "admin"
    · rw [if_pos hauth]; exact inv
    · rw [if_neg hauth]
      by_cases hcan : booking.bookingStatus = BookingStatus.cancelled
      · rw [if_pos hcan]; exact inv
      · rw [if_neg hcan]
        have hbmem := findById_mem hb
        have hcon : booking.bookingStatus = BookingStatus.confirmed := by
          cases hs : booking.bookingStatus
          · rfl
          · exact absurd hs hcan
        obtain ⟨flight, hfl⟩ :=
          findById_of_mem_fst (inv.bookings_flight _ hbmem)
        rw [hfl]
        dsimp only
        have hfmem := findById_mem hfl
        have hcontrib : contrib booking booking.flight
            = booking.passengers.length := by simp [contrib, hcon]
        have hcs := confirmedSeats_setById
          ({ booking with bookingStatus := BookingStatus.cancelled })
          booking.flight hb inv.bookings_nodup
        refine ⟨?_, ?_, ?_, ?_, ?_, ?_⟩
        · rw [setById_map_fst]; exact inv.flights_nodup
        · intro q hq
          rcases mem_setById hq with ⟨hq1, _⟩ | hq1
          · exact inv.flights_lt q hq1
          · rw [hq1]
            simpa using inv.flights_lt _ hfmem
        · rw [setById_map_fst]; exact inv.bookings_nodup
        · intro q hq
          rcases mem_setById hq with ⟨hq1, _⟩ | hq1
          · exact inv.bookings_lt q hq1
          · rw [hq1]
            simpa using inv.bookings_lt _ hbmem
        · intro q hq
          rw [setById_map_fst]
          rcases mem_setById hq with ⟨hq1, _⟩ | hq1
          · exact inv.bookings_flight q hq1
          · rw [hq1]
            simpa using inv.bookings_flight _ hbmem
        · intro q hq
          have hc2 : contrib { booking with bookingStatus := BookingStatus.cancelled } q.1 = 0 := by
            simp [contrib]
          rcases mem_setById hq with ⟨hq1, hq2⟩ | hq1
          · obtain ⟨h0, heq⟩ := inv.seats q hq1
            refine ⟨h0, ?_⟩
            have hcs2 := confirmedSeats_setById
              ({ booking with bookingStatus := BookingStatus.cancelled })
              q.1 hb inv.bookings_nodup
            have hne3 : booking.flight ≠ q.1 := fun he => hq2 he.symm
            have hc1 : contrib booking q.1 = 0 := by simp [contrib, hne3]
            rw [hc1, hc2] at hcs2
            dsimp only
            rw [hcs2]
            push_cast
            linarith
          · rw [hq1]
            obtain ⟨h0, heq⟩ := inv.seats _ hfmem
            have hlen : (0 : Int) ≤ (booking.passengers.length : Int) :=
              Int.natCast_nonneg _
            have hc2f : contrib { booking with bookingStatus := BookingStatus.cancelled }
                booking.flight = 0 := by simp [contrib]
            refine ⟨by simp only; linarith, ?_⟩
            simp only
            rw [hcs, hcontrib, hc2f]
            push_cast
            push_cast at heq
            linarith

theorem seatInvariant_applyOp {db : DB} {op : Op}
    (inv : SeatInvariant db) (hop : SafeOp op) :
    SeatInvariant (applyOp db op) := by
  cases op with
  | addFlight r => exact seatInvariant_addFlight inv hop
  | updateFlight i r => exact seatInvariant_updateFlight inv hop
  | bookTicket u f ps c m => exact seatInvariant_bookTicket inv
  | cancelTicket u t b => exact seatInvariant_cancelTicket inv

theorem seatInvariant_runOps {ops : List Op} (h : ∀ op ∈ ops, SafeOp op)
    {db : DB} (inv : SeatInvariant db) : SeatInvariant (runOps db ops) := by
  induction ops generalizing db with
  | nil => exact inv
  | cons op t ih =>
    exact ih (fun o ho => h o (List.mem_cons_of_mem op ho))
      (seatInvariant_applyOp inv (h op (List.mem_cons_self op t)))

/-! ### The claims -/

/-- C1 (amended): starting from the empty store, after every sequence of
addFlight (with nonnegative requested capacity), bookTicket and cancelTicket
requests, and updateFlight requests that do not supply `totalSeats`, every
flight satisfies `0 ≤ availableSeats ≤ totalSeats`. The restriction on
updateFlight is forced by the code: PUT /update-flight overwrites
`totalSeats` without recomputing `availableSeats`, so shrinking the capacity
breaks the upper bound (see the counterexample). -/
theorem c1_seat_bounds (ops : List Op) (h : ∀ op ∈ ops, SafeOp op) :
    ∀ p ∈ (runOps DB.empty ops).flights,
      0 ≤ p.2.availableSeats ∧ p.2.availableSeats ≤ p.2.totalSeats := by
  intro p hp
  have inv := seatInvariant_runOps h seatInvariant_empty
  obtain ⟨h0, heq⟩ := inv.seats p hp
  have hc : (0 : Int) ≤
      (confirmedSeats (runOps DB.empty ops).bookings p.1 : Int) :=
    Int.natCast_nonneg _
  exact ⟨h0, by linarith⟩

/-- A passenger used in the concrete scenarios. -/
def pax : Passenger := { name := "Ann Traveler", age := 30 }

/-- A flight-creation request with the given capacity, used in the concrete
scenarios. -/
def mkReq (n : Int) : AddFlightReq :=
  { flightName := "Sky One", flightId := "SO-101", origin := "BOM",
    destination := "DEL", departureTime := "10:00 AM",
    arrivalTime := "12:00 PM", basePrice := 100, totalSeats := n,
    journeyDate := 20260101 }

/-- A request sequence exercising every safe operation: create a flight with
2 seats, book one economy seat, fail to book two more, rename the flight,
and cancel the booking. -/
def c1Ops : List Op :=
  [Op.addFlight (mkReq 2),
   Op.bookTicket 1 1 [pax] "economy" none,
   Op.bookTicket 1 1 [pax, pax] "economy" none,
   Op.updateFlight 1 { UpdateFlightReq.empty with flightName := some "Sky Two" },
   Op.cancelTicket 1 "user" 1]

theorem c1_seat_bounds_witness :
    (∀ op ∈ c1Ops, SafeOp op) ∧
      ∀ p ∈ (runOps DB.empty c1Ops).flights,
        0 ≤ p.2.availableSeats ∧ p.2.availableSeats ≤ p.2.totalSeats :=
  ⟨by decide, c1_seat_bounds c1Ops (by decide)⟩

/-- The store after creating a flight with 10 seats and then shrinking its
capacity to 5 through PUT /update-flight. -/
def c1BadDB : DB :=
  runOps DB.empty
    [Op.addFlight (mkReq 10),
     Op.updateFlight 1 { UpdateFlightReq.empty with totalSeats := some 5 }]

/-- The flight document that store holds. -/
def c1BadFlight : Flight :=
  { flightName := "Sky One", flightId := "SO-101", origin := "BOM",
    destination := "DEL", departureTime := "10:00 AM",
    arrivalTime := "12:00 PM", basePrice := 100, totalSeats := 5,
    journeyDate := 20260101, availableSeats := 10 }

/-- C1 counterexample: the claim quantifies over sequences containing
updateFlight, but after addFlight(totalSeats = 10) followed by
updateFlight(totalSeats = 5) the stored flight has availableSeats = 10 and
totalSeats = 5, violating availableSeats ≤ totalSeats. -/
theorem c1_update_breaks_seat_bound :
    findById c1BadDB.flights 1 = some c1BadFlight ∧
      ¬ c1BadFlight.availableSeats ≤ c1BadFlight.totalSeats := by
  constructor
  · rfl
  · decide

/-- A store holding one flight (id 1) with totalSeats = availableSeats = 1:
the N = 2 instance of the concurrency property, availableSeats = N - 1. -/
def raceDB : DB := runOps DB.empty [Op.addFlight (mkReq 1)]

/-- The read phase of a first concurrent request: user 7 books one economy
seat. -/
def raceRead1 : Except ApiError PendingBooking :=
  bookRead raceDB 7 1 [pax] "economy" none

/-- The read phase of a second concurrent request, interleaved before either
write: user 8 books one economy seat against the same unmodified store. -/
def raceRead2 : Except ApiError PendingBooking :=
  bookRead raceDB 8 1 [pax] "economy" none

/-- The store after both write phases run: the schedule
read1, read2, write1, write2 permitted by the handler, whose reads
(`Flight.findById`, `Booking.find`) and writes (`newBooking.save()`,
`flight.save()`) are separate awaited steps with no locking or conditional
update between them. -/
def raceFinalDB : DB :=
  match raceRead1, raceRead2 with
  | .ok p1, .ok p2 => bookCommit (bookCommit raceDB p1) p2
  | _, _ => raceDB

/-- The seat codes each concurrent request assigns, when it succeeds. -/
def raceSeats (r : Except ApiError PendingBooking) : Option String :=
  match r with
  | .ok p => some p.newBooking.seats
  | .error _ => none

/-- The flight document left in the store after the race: the counter reads
0 even though two confirmed one-passenger bookings exist on capacity 1. -/
def raceFlightAfter : Flight :=
  { flightName := "Sky One", flightId := "SO-101", origin := "BOM",
    destination := "DEL", departureTime := "10:00 AM",
    arrivalTime := "12:00 PM", basePrice := 100, totalSeats := 1,
    journeyDate := 20260101, availableSeats := 0 }

/-- C2 fails on the code (the specification itself mandates fixing this):
with availableSeats = N - 1 = 1, a schedule that interleaves the two read
phases before the writes makes BOTH requests succeed (the claim requires
exactly N - 1 = 1 success and one InsufficientSeats failure), assigns BOTH
bookings the same seat code E-1 (the claim requires distinct codes), and
stores two confirmed one-passenger bookings against the one-seat flight
while the overwritten counter reads 0. -/
theorem c2_concurrent_lost_update :
    raceSeats raceRead1 = some "E-1" ∧
      raceSeats raceRead2 = some "E-1" ∧
      (raceFinalDB.bookings.filter
        (fun q => decide (q.2.bookingStatus = BookingStatus.confirmed))).length = 2 ∧
      findById raceFinalDB.flights 1 = some raceFlightAfter := by
  refine ⟨rfl, rfl, rfl, rfl⟩

/-- C3: every booking a sequential bookTicket creates carries exactly the
seat codes `letter-(priorCount + 1)` through `letter-(priorCount + n)`,
where `letter` is the fixed per-class letter (economy = E,
premium-economy = P, business = B, first-class = A) and `priorCount` sums
the passenger counts of ALL stored bookings of that flight and class —
`priorCount` applies no status filter, so cancelled bookings keep their
codes reserved; codes in one (flight, class) are therefore strictly
increasing and never reused (witness: book 2 economy giving E-1, E-2,
cancel both, book 1 more, giving E-3). -/
theorem c3_seat_codes (db : DB) (u fid : Nat) (ps : List Passenger)
    (c : String) (m : Option String) (b : Booking) (db2 : DB)
    (h : bookTicket db u fid ps c m = (.ok b, db2)) :
    b.seats = String.intercalate ", " ((List.range ps.length).map
      (fun i => seatLetter c ++ "-" ++ toString (priorCount db.bookings fid c + i + 1))) := by
  unfold bookTicket at h
  cases hb : bookRead db u fid ps c m with
  | error e => rw [hb] at h; exact absurd h (by simp)
  | ok p =>
    rw [hb] at h
    obtain ⟨flight, hf, hav, hp⟩ := bookRead_ok hb
    have hbp : b = p.newBooking := by
      have := (Prod.mk.injEq _ _ _ _).mp h
      exact (Except.ok.inj this.1).symm
    rw [hbp, hp]
    rfl

/-- The store after: add a 10-seat flight, book 2 economy seats (E-1, E-2),
cancel that booking. -/
def c3DB : DB :=
  runOps DB.empty
    [Op.addFlight (mkReq 10),
     Op.bookTicket 1 1 [pax, pax] "economy" none,
     Op.cancelTicket 1 "user" 1]

/-- The result of booking 1 further economy seat in that store. -/
def c3Result : Except ApiError Booking × DB := bookTicket c3DB 1 1 [pax] "economy" none

/-- The booking that call creates. -/
def c3Booking : Booking :=
  match c3Result.1 with
  | .ok b => b
  | .error _ => default

theorem c3_seat_codes_witness :
    bookTicket c3DB 1 1 [pax] "economy" none = (.ok c3Booking, c3Result.2) ∧
      c3Booking.seats = "E-3" := by
  refine ⟨rfl, ?_⟩
  have h := c3_seat_codes c3DB 1 1 [pax] "economy" none c3Booking c3Result.2 rfl
  rw [h]
  rfl

/-- C4: on a flight with availableSeats = n, booking n passengers succeeds
and leaves the stored flight with availableSeats = 0 (all other fields
unchanged), while booking n + 1 passengers fails with InsufficientSeats and
returns the store completely unchanged. -/
theorem c4_exact_capacity (db : DB) (u fid : Nat) (f : Flight) (n : Nat)
    (ps ps2 : List Passenger) (c : String) (m : Option String)
    (hf : findById db.flights fid = some f)
    (hav : f.availableSeats = (n : Int))
    (hn : ps.length = n) (hn2 : ps2.length = n + 1) :
    (∃ b db2, bookTicket db u fid ps c m = (.ok b, db2) ∧
        findById db2.flights fid = some { f with availableSeats := 0 }) ∧
      bookTicket db u fid ps2 c m = (.error .InsufficientSeats, db) := by
  constructor
  · have hlt : ¬ f.availableSeats < (ps.length : Int) := by
      rw [hav, hn]
      exact lt_irrefl _
    unfold bookTicket bookRead
    rw [hf]
    dsimp only
    rw [if_neg hlt]
    refine ⟨_, _, rfl, ?_⟩
    have hz : f.availableSeats - (ps.length : Int) = 0 := by
      rw [hav, hn]
      ring
    have := findById_setById_self
      ({ f with availableSeats := f.availableSeats - (ps.length : Int) }) hf
    simp only [bookCommit, mkPending]
    rw [this, hz]
  · have hlt : f.availableSeats < (ps2.length : Int) := by
      rw [hav, hn2]
      push_cast
      linarith
    unfold bookTicket bookRead
    rw [hf]
    dsimp only
    rw [if_pos hlt]

/-- The store holding one flight (id 1) with availableSeats = 2. -/
def c4DB : DB := runOps DB.empty [Op.addFlight (mkReq 2)]

/-- That flight document. -/
def c4Flight : Flight :=
  { flightName := "Sky One", flightId := "SO-101", origin := "BOM",
    destination := "DEL", departureTime := "10:00 AM",
    arrivalTime := "12:00 PM", basePrice := 100, totalSeats := 2,
    journeyDate := 20260101, availableSeats := 2 }

theorem c4_exact_capacity_witness :
    (findById c4DB.flights 1 = some c4Flight ∧
        c4Flight.availableSeats = ((2 : Nat) : Int) ∧
        ([pax, pax] : List Passenger).length = 2 ∧
        ([pax, pax, pax] : List Passenger).length = 2 + 1) ∧
      ((∃ b db2, bookTicket c4DB 1 1 [pax, pax] "economy" none = (.ok b, db2) ∧
          findById db2.flights 1 = some { c4Flight with availableSeats := 0 }) ∧
        bookTicket c4DB 1 1 [pax, pax, pax] "economy" none
          = (.error .InsufficientSeats, c4DB)) :=
  ⟨⟨rfl, rfl, rfl, rfl⟩,
    c4_exact_capacity c4DB 1 1 c4Flight 2 [pax, pax] [pax, pax, pax]
      "economy" none rfl rfl rfl rfl⟩

/-- C5: cancelling a confirmed booking (here by its owner) marks it
cancelled and writes the referenced flight back with availableSeats
increased by exactly `passengers.length`; a second cancelTicket on the same
booking fails with AlreadyCancelled and leaves the store exactly as the
first call left it, so the seats are restored only once. -/
theorem c5_cancel_restores_once (db : DB) (bid : Nat) (b : Booking)
    (f : Flight)
    (hb : findById db.bookings bid = some b)
    (hst : b.bookingStatus = BookingStatus.confirmed)
    (hf : findById db.flights b.flight = some f) :
    ∃ db2, cancelTicket db b.user "user" bid
        = (.ok { b with bookingStatus := BookingStatus.cancelled }, db2) ∧
      findById db2.flights b.flight
        = some { f with availableSeats :=
            f.availableSeats + (b.passengers.length : Int) } ∧
      cancelTicket db2 b.user "user" bid
        = (.error .AlreadyCancelled, db2) := by
  have hauth : ¬ (b.user ≠ b.user ∧ "user" ≠ "admin") := by simp
  have hcan : ¬ b.bookingStatus = BookingStatus.cancelled := by
    rw [hst]
    simp
  refine ⟨{ db with
      bookings := setById db.bookings bid
        { b with bookingStatus := BookingStatus.cancelled },
      flights := setById db.flights b.flight
        { f with availableSeats :=
            f.availableSeats + (b.passengers.length : Int) } }, ?_, ?_, ?_⟩
  · unfold cancelTicket
    rw [hb]
    dsimp only
    rw [if_neg hauth, if_neg hcan, hf]
  · exact findById_setById_self _ hf
  · unfold cancelTicket
    dsimp only
    rw [findById_setById_self
      ({ b with bookingStatus := BookingStatus.cancelled }) hb]
    dsimp only
    rw [if_neg (by simp), if_pos rfl]

/-- The store after: add a 10-seat flight, book 3 economy seats
(availableSeats drops to 7). -/
def c5DB : DB :=
  runOps DB.empty
    [Op.addFlight (mkReq 10),
     Op.bookTicket 4 1 [pax, pax, pax] "economy" none]

/-- The stored confirmed booking (id 1) in that store. -/
def c5Booking : Booking :=
  match findById c5DB.bookings 1 with
  | some b => b
  | none => default

/-- The stored flight (id 1) in that store, with availableSeats = 7. -/
def c5Flight : Flight :=
  match findById c5DB.flights 1 with
  | some f => f
  | none => default

theorem c5_cancel_restores_once_witness :
    (findById c5DB.bookings 1 = some c5Booking ∧
        c5Booking.bookingStatus = BookingStatus.confirmed ∧
        findById c5DB.flights c5Booking.flight = some c5Flight) ∧
      ∃ db2, cancelTicket c5DB c5Booking.user "user" 1
          = (.ok { c5Booking with bookingStatus := BookingStatus.cancelled }, db2) ∧
        findById db2.flights c5Booking.flight
          = some { c5Flight with availableSeats :=
              c5Flight.availableSeats + (c5Booking.passengers.length : Int) } ∧
        cancelTicket db2 c5Booking.user "user" 1
          = (.error .AlreadyCancelled, db2) :=
  ⟨⟨rfl, rfl, rfl⟩,
    c5_cancel_restores_once c5DB 1 c5Booking c5Flight rfl rfl rfl⟩

/-- A store holding one flight-operator account whose approval state is
"rejected" (what POST /reject-operator stores), with a known password. -/
def c6User : UserRec :=
  { username := "op", email := "op@mail", usertype := "flight-operator",
    password := hashPw "secret", approval := "rejected" }

def c6DB : DB :=
  { DB.empty with users := [(1, c6User)], nextUserId := 2 }

/-- C6 fails on the code: line 141 of index.js rejects an operator only when
`approval === "not-approved"`, so a REJECTED flight-operator with matching
credentials is issued a session token (here encoding the rejected approval
state) instead of failing with OperatorNotApproved. The code is
inconsistent with its own `flightOperatorAuth` middleware (line 65), which
requires `approval === "approved"`, and with the purpose of
POST /reject-operator. -/
theorem c6_rejected_operator_gets_token :
    login c6DB "op@mail" "secret"
      = .ok { userId := 1, usertype := "flight-operator",
              approval := "rejected" } := by
  rfl

/-- C7 counterexample: the claim says the accepted roles are
{traveler, admin, flight-operator}, but registering with the literal
usertype "traveler" is rejected with InvalidRole — the only accepted
usertype strings are "user", "admin" and "flight-operator" (line 92 of
index.js), the traveler role being stored as "user". -/
theorem c7_traveler_string_rejected :
    register DB.empty "alice" "alice@mail" "traveler" "secret"
      = (.error .InvalidRole, DB.empty) := by
  rfl

/-- C7 (amended): on a store with no conflicting email or username,
register fails with InvalidRole exactly when the requested usertype is
outside {user, admin, flight-operator} — "user" being the stored name of
the traveler role; a flight-operator registration is created with
approval "not-approved", and a user or admin registration is created with
approval "approved". -/
theorem c7_roles (db : DB) (un em ut pw : String)
    (hem : ∀ p ∈ db.users, p.2.email ≠ em)
    (hun : ∀ p ∈ db.users, p.2.username ≠ un) :
    (ut ∉ (["user", "admin", "flight-operator"] : List String) →
      register db un em ut pw = (.error .InvalidRole, db)) ∧
    (ut = "flight-operator" →
      ∃ u db2, register db un em ut pw = (.ok u, db2) ∧
        u.approval = "not-approved") ∧
    ((ut = "user" ∨ ut = "admin") →
      ∃ u db2, register db un em ut pw = (.ok u, db2) ∧
        u.approval = "approved") := by
  have h1 : ¬ (db.users.any (fun p => p.2.email == em) = true) := by
    rw [List.any_eq_true]
    rintro ⟨p, hp, he⟩
    exact hem p hp (by simpa using he)
  have h2 : ¬ (db.users.any (fun p => p.2.username == un) = true) := by
    rw [List.any_eq_true]
    rintro ⟨p, hp, he⟩
    exact hun p hp (by simpa using he)
  refine ⟨?_, ?_, ?_⟩
  · intro hut
    simp only [List.mem_cons, List.not_mem_nil, or_false, not_or] at hut
    obtain ⟨hu1, hu2, hu3⟩ := hut
    unfold register
    rw [if_neg h1, if_neg h2, if_neg hu3, if_pos ⟨hu1, hu2⟩]
  · intro hut
    subst hut
    unfold register
    rw [if_neg h1, if_neg h2, if_pos rfl]
    exact ⟨_, _, rfl, rfl⟩
  · intro hut
    have hu3 : ut ≠ "flight-operator" := by
      rcases hut with h | h <;> subst h <;> decide
    have hu4 : ¬ (ut ≠ "user" ∧ ut ≠ "admin") := by
      rcases hut with h | h <;> subst h <;> simp
    unfold register
    rw [if_neg h1, if_neg h2, if_neg hu3, if_neg hu4]
    exact ⟨_, _, rfl, rfl⟩

theorem c7_roles_witness :
    ((∀ p ∈ DB.empty.users, p.2.email ≠ "op@mail") ∧
        ∀ p ∈ DB.empty.users, p.2.username ≠ "op") ∧
      (("flight-operator" : String)
          ∉ (["user", "admin", "flight-operator"] : List String) →
        register DB.empty "op" "op@mail" "flight-operator" "secret"
          = (.error .InvalidRole, DB.empty)) ∧
      (("flight-operator" : String) = "flight-operator" →
        ∃ u db2, register DB.empty "op" "op@mail" "flight-operator" "secret"
          = (.ok u, db2) ∧ u.approval = "not-approved") ∧
      ((("flight-operator" : String) = "user" ∨
          ("flight-operator" : String) = "admin") →
        ∃ u db2, register DB.empty "op" "op@mail" "flight-operator" "secret"
          = (.ok u, db2) ∧ u.approval = "approved") :=
  ⟨⟨by simp [DB.empty], by simp [DB.empty]⟩,
    c7_roles DB.empty "op" "op@mail" "flight-operator" "secret"
      (by simp [DB.empty]) (by simp [DB.empty])⟩

/-- A store holding one flight (id 1) with availableSeats = 5, for the
empty-passenger-list scenario. -/
def c8DB : DB := runOps DB.empty [Op.addFlight (mkReq 5)]

/-- What booking an empty-passenger request creates in that store. -/
def c8Booking : Booking :=
  match (bookTicket c8DB 1 1 [] "economy" none).1 with
  | .ok b => b
  | .error _ => default

/-- C8 counterexample: the handler has no check on `passengers.length`
(and no ValidationError branch at all) — the guard on line 359 compares
`availableSeats < 0`, which never holds here — so a request with an empty
passengers list does NOT fail: it returns 201 with a zero-passenger
booking, and a booking document IS created. -/
theorem c8_empty_passengers_not_rejected :
    (bookTicket c8DB 1 1 [] "economy" none).1 = .ok c8Booking ∧
      c8Booking.passengers = [] ∧
      (bookTicket c8DB 1 1 [] "economy" none).2.bookings.length = 1 := by
  refine ⟨rfl, rfl, rfl⟩

/-- C8 (amended): a bookTicket request with an empty passengers list is not
rejected: whenever the flight exists and its availableSeats is nonnegative,
the call succeeds, stores a booking with no passengers, no seat codes and
totalPrice 0, leaves the flight document unchanged, and adds one booking
document. -/
theorem c8_empty_passengers_booking (db : DB) (u fid : Nat) (c : String)
    (m : Option String) (f : Flight)
    (hf : findById db.flights fid = some f)
    (hav : 0 ≤ f.availableSeats) :
    ∃ b db2, bookTicket db u fid [] c m = (.ok b, db2) ∧
      b.passengers = [] ∧ b.totalPrice = 0 ∧ b.seats = "" ∧
      findById db2.flights fid = some f ∧
      db2.bookings.length = db.bookings.length + 1 := by
  have hlt : ¬ f.availableSeats < (([] : List Passenger).length : Int) := by
    simpa using hav
  unfold bookTicket bookRead
  rw [hf]
  dsimp only
  rw [if_neg hlt]
  refine ⟨_, _, rfl, rfl, by simp [mkPending], rfl, ?_, ?_⟩
  · have hz : f.availableSeats - (([] : List Passenger).length : Int)
        = f.availableSeats := by simp
    have hs := findById_setById_self
      ({ f with availableSeats :=
          f.availableSeats - (([] : List Passenger).length : Int) }) hf
    simp only [bookCommit, mkPending]
    rw [hs, hz]
  · simp [bookCommit]

/-- The flight document held by that store: 5 of 5 seats available. -/
def c8Flight : Flight :=
  { flightName := "Sky One", flightId := "SO-101", origin := "BOM",
    destination := "DEL", departureTime := "10:00 AM",
    arrivalTime := "12:00 PM", basePrice := 100, totalSeats := 5,
    journeyDate := 20260101, availableSeats := 5 }

theorem c8_empty_passengers_booking_witness :
    (findById c8DB.flights 1 = some c8Flight ∧
        (0 : Int) ≤ c8Flight.availableSeats) ∧
      ∃ b db2, bookTicket c8DB 9 1 [] "economy" none = (.ok b, db2) ∧
        b.passengers = [] ∧ b.totalPrice = 0 ∧ b.seats = "" ∧
        findById db2.flights 1 = some c8Flight ∧
        db2.bookings.length = c8DB.bookings.length + 1 :=
  ⟨⟨rfl, by decide⟩,
    c8_empty_passengers_booking c8DB 9 1 "economy" none c8Flight rfl (by decide)⟩

/-- C9: updateFlight on an existing flight succeeds and is a pure frame
update — availableSeats is returned unchanged unconditionally (it is never
recomputed, whatever fields the request carries, totalSeats included), and
every field absent from the request keeps its previous value. -/
theorem c9_update_frame (db : DB) (id : Nat) (f : Flight)
    (r : UpdateFlightReq) (hf : findById db.flights id = some f) :
    ∃ f2 db2, updateFlight db id r = (.ok f2, db2) ∧
      f2.availableSeats = f.availableSeats ∧
      (r.flightName = none → f2.flightName = f.flightName) ∧
      (r.flightId = none → f2.flightId = f.flightId) ∧
      (r.origin = none → f2.origin = f.origin) ∧
      (r.destination = none → f2.destination = f.destination) ∧
      (r.departureTime = none → f2.departureTime = f.departureTime) ∧
      (r.arrivalTime = none → f2.arrivalTime = f.arrivalTime) ∧
      (r.basePrice = none → f2.basePrice = f.basePrice) ∧
      (r.totalSeats = none → f2.totalSeats = f.totalSeats) ∧
      (r.journeyDate = none → f2.journeyDate = f.journeyDate) := by
  unfold updateFlight
  rw [hf]
  dsimp only
  refine ⟨_, _, rfl, rfl, ?_, ?_, ?_, ?_, ?_, ?_, ?_, ?_, ?_⟩ <;>
    intro h <;> simp [jsOrStr, jsOrNum, h]

/-- A store holding one flight (id 1) with a known document, for the
update-frame witness. -/
def c9DB : DB := runOps DB.empty [Op.addFlight (mkReq 8)]

/-- That flight document: 8 of 8 seats available. -/
def c9Flight : Flight :=
  { flightName := "Sky One", flightId := "SO-101", origin := "BOM",
    destination := "DEL", departureTime := "10:00 AM",
    arrivalTime := "12:00 PM", basePrice := 100, totalSeats := 8,
    journeyDate := 20260101, availableSeats := 8 }

/-- An update request supplying only the base price. -/
def c9Req : UpdateFlightReq :=
  { UpdateFlightReq.empty with basePrice := some 250 }

theorem c9_update_frame_witness :
    findById c9DB.flights 1 = some c9Flight ∧
      ∃ f2 db2, updateFlight c9DB 1 c9Req = (.ok f2, db2) ∧
        f2.availableSeats = c9Flight.availableSeats ∧
        (c9Req.flightName = none → f2.flightName = c9Flight.flightName) ∧
        (c9Req.flightId = none → f2.flightId = c9Flight.flightId) ∧
        (c9Req.origin = none → f2.origin = c9Flight.origin) ∧
        (c9Req.destination = none → f2.destination = c9Flight.destination) ∧
        (c9Req.departureTime = none → f2.departureTime = c9Flight.departureTime) ∧
        (c9Req.arrivalTime = none → f2.arrivalTime = c9Flight.arrivalTime) ∧
        (c9Req.basePrice = none → f2.basePrice = c9Flight.basePrice) ∧
        (c9Req.totalSeats = none → f2.totalSeats = c9Flight.totalSeats) ∧
        (c9Req.journeyDate = none → f2.journeyDate = c9Flight.journeyDate) :=
  ⟨rfl, c9_update_frame c9DB 1 c9Flight c9Req rfl⟩

/-- C10: a bookTicket request whose seatClass is none of economy,
premium-economy, business and first-class is not rejected — the lookup
`seatCode[seatClass]` on line 373 is unguarded, yields undefined, and the
template literal renders it as the string "undefined" — so given enough
seats the booking succeeds and its seat codes are
`undefined-(priorCount + 1)`, `undefined-(priorCount + 2)`, ... -/
theorem c10_unknown_seat_class (db : DB) (u fid : Nat) (ps : List Passenger)
    (c : String) (m : Option String) (f : Flight)
    (hf : findById db.flights fid = some f)
    (hc : c ∉ (["economy", "premium-economy", "business", "first-class"] : List String))
    (hav : (ps.length : Int) ≤ f.availableSeats) :
    ∃ b db2, bookTicket db u fid ps c m = (.ok b, db2) ∧
      b.seats = String.intercalate ", " ((List.range ps.length).map
        (fun i => "undefined-" ++ toString (priorCount db.bookings fid c + i + 1))) := by
  simp only [List.mem_cons, List.not_mem_nil, or_false, not_or] at hc
  obtain ⟨h1, h2, h3, h4⟩ := hc
  have hl : seatLetter c = "undefined" := by
    simp [seatLetter, seatCodeLookup, h1, h2, h3, h4]
  have hd : ("undefined" ++ "-" : String) = "undefined-" := rfl
  unfold bookTicket bookRead
  rw [hf]
  dsimp only
  rw [if_neg (not_lt.mpr hav)]
  refine ⟨_, _, rfl, ?_⟩
  simp only [mkPending, hl, hd]

theorem c10_unknown_seat_class_witness :
    (findById c8DB.flights 1 = some c8Flight ∧
        ("luxury" : String)
          ∉ (["economy", "premium-economy", "business", "first-class"] : List String) ∧
        (([pax] : List Passenger).length : Int) ≤ c8Flight.availableSeats) ∧
      ∃ b db2, bookTicket c8DB 2 1 [pax] "luxury" none = (.ok b, db2) ∧
        b.seats = String.intercalate ", " ((List.range ([pax] : List Passenger).length).map
          (fun i => "undefined-" ++ toString (priorCount c8DB.bookings 1 "luxury" + i + 1))) :=
  ⟨⟨rfl, by decide, by decide⟩,
    c10_unknown_seat_class c8DB 2 1 [pax] "luxury" none c8Flight rfl
      (by decide) (by decide)⟩

end FlightFinder
